import Mathlib

/-!
PDF viewer with a 3D overlay: the page-driven presentation state of `src/main.js`.

A shallow embedding of the stateful core of `main.js`: the list `animObjects`, the two
model references `gltfModel1` / `gltfModel2`, the drag state, the zoom target, the
camera and the layout.  JavaScript numbers are modelled by exact rationals `ℚ`.

References.  `gltfModel1` and `gltfModel2` alias the `mesh` of the entry that the same
loader callback pushes onto `animObjects`.  The scene object is stored inside its entry
and a model reference is `none` (JavaScript `null`) or the position of that entry in
`animObjects`, so that a write through `gltfModel2` is a write to that entry's mesh.

Scene graphs.  `mesh.traverse(cb)` is library code; it calls `cb` on the node and on
every descendant in a fixed order.  A scene object carries that sequence as `parts`;
only the root's `visible` and `rotation` are read or written by `main.js`.
-/

namespace PdfViewer

/-! ## Constants (main.js lines 10-18) -/

def PDF_START_SCALE : ℚ := 0.9
def RATIO : ℚ := 4 / 2.8
def FADE_SPEED : ℚ := 0.1
def DAMP : ℚ := 0.93
def frustumSize : ℚ := 10
def damping : ℚ := DAMP

/-! ## Data model -/

/-- One node visited by `traverse`: its `isMesh` flag and the opacity of its material,
`none` when the node has no material. -/
structure Part where
  isMesh : Bool
  material : Option ℚ
deriving DecidableEq

/-- A loaded glTF scene: the root's `visible` flag and rotation, and the nodes that
`traverse` visits, in visiting order. -/
structure SceneNode where
  visible : Bool
  rotationX : ℚ
  rotationY : ℚ
  parts : List Part
deriving DecidableEq

/-- An entry of `animObjects`: `{ mesh, fadeTarget, rotate, rotateSpeed }`. -/
structure AnimObject where
  mesh : SceneNode
  fadeTarget : ℚ
  rotate : Bool
  rotateSpeed : ℚ
deriving DecidableEq

/-- The orthographic camera fields that `main.js` assigns. -/
structure Camera where
  left : ℚ
  right : ℚ
  top : ℚ
  bottom : ℚ
  zoom : ℚ
deriving DecidableEq

/-- The module-level variables of `main.js`, with the window size and the layout that
`updateCanvasPositions` writes to the DOM. -/
structure State where
  pdfDoc : Option ℕ
  pageNum : ℕ
  scale : ℚ
  innerWidth : ℚ
  innerHeight : ℚ
  width : ℚ
  height : ℚ
  offsetX : ℚ
  offsetY : ℚ
  threeDisplay : Bool
  aspect : ℚ
  camera : Camera
  animObjects : List AnimObject
  gltfModel1 : Option ℕ
  gltfModel2 : Option ℕ
  isDragging : Bool
  prevMouseX : ℚ
  prevMouseY : ℚ
  velocityX : ℚ
  velocityY : ℚ
  autoRotateEnabled : Bool
  targetZoom : ℚ
deriving DecidableEq

/-- The state after the module's top-level code has run in a window of size `W × H`,
before any callback (lines 24-26, 40-54, 90-92, 125-127, 143). -/
def init (W H : ℚ) : State :=
  { pdfDoc := none, pageNum := 1, scale := PDF_START_SCALE,
    innerWidth := W, innerHeight := H,
    width := 0, height := 0, offsetX := 0, offsetY := 0,
    threeDisplay := false,
    aspect := W / H,
    camera :=
      { left := -frustumSize * (W / H) / 2, right := frustumSize * (W / H) / 2,
        top := frustumSize / 2, bottom := -frustumSize / 2, zoom := 1 },
    animObjects := [], gltfModel1 := none, gltfModel2 := none,
    isDragging := false, prevMouseX := 0, prevMouseY := 0, velocityX := 0, velocityY := 0,
    autoRotateEnabled := true,
    targetZoom := PDF_START_SCALE }

/-! ## Model loading (lines 94-122) -/

/-- The success callback of `loader.load(MODEL_1, ...)`: hides the scene, records it in
`gltfModel1` and pushes its entry. -/
def onLoadModel1 (scene : SceneNode) (s : State) : State :=
  { s with
    gltfModel1 := some s.animObjects.length,
    animObjects := s.animObjects ++
      [{ mesh := { scene with visible := false }, fadeTarget := 0, rotate := false,
         rotateSpeed := 0.001 }] }

/-- The success callback of `loader.load(MODEL_2, ...)`. -/
def onLoadModel2 (scene : SceneNode) (s : State) : State :=
  { s with
    gltfModel2 := some s.animObjects.length,
    animObjects := s.animObjects ++
      [{ mesh := { scene with visible := false }, fadeTarget := 0, rotate := false,
         rotateSpeed := 0.001 }] }

/-! ## Page control (lines 226-232) -/

/-- The body of the `forEach` of `handlePageChange`:
`o.fadeTarget=0; o.rotate=false; o.mesh.visible=false`. -/
def resetObject (o : AnimObject) : AnimObject :=
  { o with fadeTarget := 0, rotate := false, mesh := { o.mesh with visible := false } }

/-- The write `visible = true` on the mesh of an entry. -/
def showMesh (o : AnimObject) : AnimObject :=
  { o with mesh := { o.mesh with visible := true } }

/-- The writes `animObjects[k].fadeTarget=1; animObjects[k].rotate=true`. -/
def activate (o : AnimObject) : AnimObject :=
  { o with fadeTarget := 1, rotate := true }

/-- A state together with whether the call ended in an uncaught `TypeError`; the writes
made before the error stay. -/
structure Outcome where
  state : State
  threw : Bool
deriving DecidableEq

/-- The statements `animObjects[k].fadeTarget=1; animObjects[k].rotate=true`: a
`TypeError` when `animObjects[k]` is `undefined`. -/
def activateAt (k : ℕ) (s : State) : Outcome :=
  match s.animObjects[k]? with
  | none => { state := s, threw := true }
  | some _ => { state := { s with animObjects := s.animObjects.modify activate k },
                threw := false }

/-- The statement `gltfModelN.visible = true`, the reference `gltfModelN` being the mesh
of the entry at position `i`. -/
def showModel (i : ℕ) (s : State) : State :=
  { s with animObjects := s.animObjects.modify showMesh i }

/-- The first statement of `handlePageChange`:
`animObjects.forEach(o => { o.fadeTarget=0; o.rotate=false; o.mesh.visible=false; })`. -/
def resetAll (s : State) : State :=
  { s with animObjects := s.animObjects.map resetObject }

/-- The function `handlePageChange(num)`. -/
def handlePageChange (num : ℕ) (s : State) : Outcome :=
  let s0 : State := resetAll s
  if num = 8 then
    match s0.gltfModel2 with
    | none => { state := s0, threw := false }
    | some i => activateAt 1 (showModel i s0)
  else if num = 10 then
    match s0.gltfModel1 with
    | none => { state := s0, threw := false }
    | some i => activateAt 0 (showModel i s0)
  else { state := s0, threw := false }

/-! ## Layout (lines 200-223) -/

/-- The function `getCanvasSize4by3(winW, winH, scaleFactor)`, returning
`(width, height)`. -/
def getCanvasSize4by3 (_winW winH scaleFactor : ℚ) : ℚ × ℚ :=
  let h := winH * scaleFactor
  let w := h * RATIO
  (w, h)

/-- The function `updateCanvasPositions()`. -/
def updateCanvasPositions (s : State) : State :=
  let width := (getCanvasSize4by3 s.innerWidth s.innerHeight s.scale).1
  let height := (getCanvasSize4by3 s.innerWidth s.innerHeight s.scale).2
  let aspect := width / height
  { s with
    width := width, height := height,
    aspect := aspect,
    camera :=
      { left := -frustumSize * aspect / 2, right := frustumSize * aspect / 2,
        top := frustumSize / 2, bottom := -frustumSize / 2, zoom := s.scale },
    offsetX := (s.innerWidth - width) / 2,
    offsetY := (s.innerHeight - height) / 2 }

/-! ## Rendering and controls (lines 33-36, 235-250, 259-264, 273, 276) -/

/-- The `onchange` handler of the auto-rotate toggle. -/
def toggleRotate (checked : Bool) (s : State) : State :=
  { s with autoRotateEnabled := checked }

/-! ## Pointer and wheel input (lines 129-147) -/

/-- Applies a rotation increment to what `animObjects.find(o => o.mesh.visible)` returns:
the first entry whose mesh is visible. -/
def rotateFirstVisible (dy dx : ℚ) : List AnimObject → List AnimObject
  | [] => []
  | o :: rest =>
    if o.mesh.visible then
      { o with mesh := { o.mesh with rotationY := o.mesh.rotationY + dy,
                                     rotationX := o.mesh.rotationX + dx } } :: rest
    else o :: rotateFirstVisible dy dx rest

/-- The `wheel` listener: `targetZoom *= e.deltaY < 0 ? 1.1 : 0.9`. -/
def wheel (deltaY : ℚ) (s : State) : State :=
  { s with targetZoom := s.targetZoom * (if deltaY < 0 then 1.1 else 0.9) }

/-! ## The animation tick (lines 149-179) -/

/-- The function `updateCameraZoom()`. -/
def updateCameraZoom (s : State) : State :=
  { s with camera := { s.camera with zoom := s.camera.zoom + (s.targetZoom - s.camera.zoom) * 0.1 } }

/-- The value `visibleObj = animObjects.find(o => o.mesh.visible)`. -/
def visibleObj (s : State) : Option AnimObject :=
  s.animObjects.find? (fun o => o.mesh.visible)

/-- The drag-momentum block of `animate`. -/
def dragMomentum (s : State) : State :=
  match visibleObj s with
  | none => s
  | some _ =>
    if s.isDragging then s
    else
      { s with
        animObjects := rotateFirstVisible s.velocityX s.velocityY s.animObjects,
        velocityX := s.velocityX * damping, velocityY := s.velocityY * damping }

/-- The JavaScript expression `x || 0` on a number. -/
def orZero (x : ℚ) : ℚ := if x = 0 then 0 else x

/-- The fade step `opacity += (fadeTarget - (opacity || 0)) * FADE_SPEED`. -/
def fadeStep (fadeTarget opacity : ℚ) : ℚ :=
  opacity + (fadeTarget - orZero opacity) * FADE_SPEED

/-- The callback that `animate` passes to `o.mesh.traverse`, on one visited node; `vis`
and `rotY` are the current `o.mesh.visible` and `o.mesh.rotation.y`. -/
def fadeChild (o : AnimObject) (auto : Bool) (child : Part) (vis : Bool) (rotY : ℚ) :
    Part × Bool × ℚ :=
  if child.isMesh = false then (child, vis, rotY)
  else
    match child.material with
    | none => (child, vis, rotY)
    | some opacity =>
      let opacity1 := fadeStep o.fadeTarget opacity
      let vis1 := if opacity1 < 0.01 ∧ o.fadeTarget = 0 then false else vis
      let rotY1 := if (o.rotate && vis1 && auto) = true then rotY + o.rotateSpeed else rotY
      ({ child with material := some opacity1 }, vis1, rotY1)

/-- The call `o.mesh.traverse(child => ...)` of `animate`. -/
def traverseFade (o : AnimObject) (auto : Bool) : List Part → Bool → ℚ → List Part × Bool × ℚ
  | [], vis, rotY => ([], vis, rotY)
  | child :: rest, vis, rotY =>
    let r := fadeChild o auto child vis rotY
    let t := traverseFade o auto rest r.2.1 r.2.2
    (r.1 :: t.1, t.2.1, t.2.2)

/-- The body of the fade / rotate `forEach` of `animate` for one entry.  Every entry is
pushed with a scene as its `mesh`, so the guard `if (!o.mesh) return` is never taken. -/
def fadeObject (auto : Bool) (o : AnimObject) : AnimObject :=
  let t := traverseFade o auto o.mesh.parts o.mesh.visible o.mesh.rotationY
  { o with mesh := { o.mesh with parts := t.1, visible := t.2.1, rotationY := t.2.2 } }

/-- The fade / rotate pass of `animate`. -/
def fadePass (s : State) : State :=
  { s with animObjects := s.animObjects.map (fadeObject s.autoRotateEnabled) }

/-- One run of `animate`: drag momentum, fade / rotate, zoom easing (the render call
changes no state). -/
def animate (s : State) : State :=
  updateCameraZoom (fadePass (dragMomentum s))

/-! ## Decay bound -/

/-- A scene whose root group holds two meshes with opaque materials. -/
def twoMeshScene : SceneNode :=
  { visible := true, rotationX := 0, rotationY := 0,
    parts := [{ isMesh := false, material := none }, { isMesh := true, material := some 1 },
              { isMesh := true, material := some 1 }] }

/-- A scene whose root group holds no mesh. -/
def emptyScene : SceneNode :=
  { visible := true, rotationX := 0, rotationY := 0,
    parts := [{ isMesh := false, material := none }] }

theorem map_modify_absorb {α β : Type} (g : α → β) (f : α → α) (h : ∀ a, g (f a) = g a)
    (l : List α) (i : ℕ) : (l.modify f i).map g = l.map g := by
  induction l generalizing i with
  | nil => cases i <;> simp
  | cons a l ih =>
    cases i with
    | zero => simp [h]
    | succ i => simp [ih]

theorem resetObject_resetObject (o : AnimObject) : resetObject (resetObject o) = resetObject o :=
  rfl

theorem resetObject_showMesh (o : AnimObject) : resetObject (showMesh o) = resetObject o :=
  rfl

theorem resetObject_activate (o : AnimObject) : resetObject (activate o) = resetObject o :=
  rfl

theorem resetAll_resetAll (s : State) : resetAll (resetAll s) = resetAll s := by
  simp [resetAll, resetObject_resetObject]

theorem resetAll_showModel (s : State) (i : ℕ) : resetAll (showModel i s) = resetAll s := by
  simp [resetAll, showModel, map_modify_absorb resetObject showMesh resetObject_showMesh]

theorem resetAll_activateAt (k : ℕ) (s : State) :
    resetAll (activateAt k s).state = resetAll s := by
  unfold activateAt
  cases h : s.animObjects[k]? with
  | none => rfl
  | some o => simp [resetAll, map_modify_absorb resetObject activate resetObject_activate]

/-- Resetting after `handlePageChange` gives the reset of the state before it. -/
theorem resetAll_handlePageChange (p : ℕ) (s : State) :
    resetAll (handlePageChange p s).state = resetAll s := by
  unfold handlePageChange
  simp only
  split_ifs with h8 h10
  · cases hm : (resetAll s).gltfModel2 with
    | none => simp [resetAll_resetAll]
    | some i =>
      show resetAll (activateAt _ _).state = _
      rw [resetAll_activateAt, resetAll_showModel, resetAll_resetAll]
  · cases hm : (resetAll s).gltfModel1 with
    | none => simp [resetAll_resetAll]
    | some i =>
      show resetAll (activateAt _ _).state = _
      rw [resetAll_activateAt, resetAll_showModel, resetAll_resetAll]
  · simp [resetAll_resetAll]

/-- The outcome of `handlePageChange` depends on the state only through its reset. -/
theorem handlePageChange_congr (p : ℕ) (s t : State) (h : resetAll t = resetAll s) :
    handlePageChange p t = handlePageChange p s := by
  unfold handlePageChange
  simp only [h]

/-- C3: `handlePageChange` is idempotent: for every page number and every state, a
second `handlePageChange(p)` right after the first leaves the whole state, and so the
`fadeTarget`, `rotate` and `mesh.visible` of every object, as the first call left it. -/
theorem handlePageChange_idempotent (p : ℕ) (s : State) :
    (handlePageChange p (handlePageChange p s).state).state = (handlePageChange p s).state ∧
    (handlePageChange p (handlePageChange p s).state).state.animObjects.map
        (fun o => (o.fadeTarget, o.rotate, o.mesh.visible)) =
      (handlePageChange p s).state.animObjects.map
        (fun o => (o.fadeTarget, o.rotate, o.mesh.visible)) := by
  have h := handlePageChange_congr p s (handlePageChange p s).state
    (resetAll_handlePageChange p s)
  rw [h]
  exact ⟨rfl, rfl⟩

/-- When model 1 finishes loading before model 2, `handlePageChange(8)` shows and
activates the entry of model 2 and leaves the entry of model 1 hidden with target 0. -/
theorem handlePageChange_8_load_order_1_2 (W H : ℚ) (sc1 sc2 : SceneNode) :
    (onLoadModel2 sc2 (onLoadModel1 sc1 (init W H))).gltfModel2 = some 1 ∧
    (handlePageChange 8 (onLoadModel2 sc2 (onLoadModel1 sc1 (init W H)))).state.animObjects =
      [{ mesh := { sc1 with visible := false }, fadeTarget := 0, rotate := false,
         rotateSpeed := 0.001 },
       { mesh := { sc2 with visible := true }, fadeTarget := 1, rotate := true,
         rotateSpeed := 0.001 }] :=
  ⟨rfl, rfl⟩

/-- C1, at the load order model 2 then model 1: `gltfModel2` is the mesh of entry 0, and
after `handlePageChange(8)` that entry is visible but keeps `fadeTarget = 0` and
`rotate = false`, while the entry of model 1 (entry 1) gets `fadeTarget = 1` and
`rotate = true`.  When only model 2 has loaded the call ends in a `TypeError` with the
entry of model 2 visible, `fadeTarget = 0` and `rotate = false`. -/
theorem handlePageChange_8_load_order_2_1 (W H : ℚ) (sc1 sc2 : SceneNode) :
    (onLoadModel1 sc1 (onLoadModel2 sc2 (init W H))).gltfModel2 = some 0 ∧
    (handlePageChange 8 (onLoadModel1 sc1 (onLoadModel2 sc2 (init W H)))).state.animObjects =
      [{ mesh := { sc2 with visible := true }, fadeTarget := 0, rotate := false,
         rotateSpeed := 0.001 },
       { mesh := { sc1 with visible := false }, fadeTarget := 1, rotate := true,
         rotateSpeed := 0.001 }] ∧
    (handlePageChange 8 (onLoadModel2 sc2 (init W H))).threw = true ∧
    (handlePageChange 8 (onLoadModel2 sc2 (init W H))).state.animObjects =
      [{ mesh := { sc2 with visible := true }, fadeTarget := 0, rotate := false,
         rotateSpeed := 0.001 }] :=
  ⟨rfl, rfl, rfl, rfl⟩

/-- C2, at the load order model 2 then model 1 with `p1 = 10` and `p2 = 8`: after
`handlePageChange(10)` then `handlePageChange(8)` the entry with `fadeTarget = 1` is
entry 1, the entry of model 1, and the entry of model 2, the asset of page 8, has
`fadeTarget = 0`. -/
theorem handlePageChange_10_8_load_order_2_1 (W H : ℚ) (sc1 sc2 : SceneNode) :
    (onLoadModel1 sc1 (onLoadModel2 sc2 (init W H))).gltfModel1 = some 1 ∧
    (onLoadModel1 sc1 (onLoadModel2 sc2 (init W H))).gltfModel2 = some 0 ∧
    (handlePageChange 8 (handlePageChange 10
        (onLoadModel1 sc1 (onLoadModel2 sc2 (init W H)))).state).state.animObjects.map
      (fun o => (o.fadeTarget, o.rotate, o.mesh.visible)) =
      [(0, false, true), (1, true, false)] :=
  ⟨rfl, rfl, rfl⟩

/-- C5: for a window of height `H > 0` and a zoom scale `s > 0`, the layout of
`updateCanvasPositions` has height `H*s`, width `H*s*(4/2.8)` (the pair returned by
`getCanvasSize4by3`), centring offsets `(W - width)/2` and `(H - height)/2`, and a camera
frustum symmetric about the origin with `right = -left = frustumSize*(width/height)/2`,
which is `frustumSize*(4/2.8)/2`, and `top = -bottom = frustumSize/2`.  Any state with the
same window size and scale gets the same layout, and for `W = 1200`, `H = 600`,
`s = 0.9` the height is `540` and the width `5400/7`. -/
theorem updateCanvasPositions_layout (s : State) (hH : 0 < s.innerHeight) (hs : 0 < s.scale) :
    (updateCanvasPositions s).height = s.innerHeight * s.scale ∧
    (updateCanvasPositions s).width = s.innerHeight * s.scale * (4 / 2.8) ∧
    getCanvasSize4by3 s.innerWidth s.innerHeight s.scale =
      ((updateCanvasPositions s).width, (updateCanvasPositions s).height) ∧
    (updateCanvasPositions s).offsetX = (s.innerWidth - (updateCanvasPositions s).width) / 2 ∧
    (updateCanvasPositions s).offsetY = (s.innerHeight - (updateCanvasPositions s).height) / 2 ∧
    (updateCanvasPositions s).camera.right =
      frustumSize * ((updateCanvasPositions s).width / (updateCanvasPositions s).height) / 2 ∧
    (updateCanvasPositions s).camera.right = frustumSize * (4 / 2.8) / 2 ∧
    (updateCanvasPositions s).camera.left = -(updateCanvasPositions s).camera.right ∧
    (updateCanvasPositions s).camera.top = frustumSize / 2 ∧
    (updateCanvasPositions s).camera.bottom = -(updateCanvasPositions s).camera.top ∧
    (∀ t : State, t.innerWidth = s.innerWidth → t.innerHeight = s.innerHeight →
      t.scale = s.scale →
      (updateCanvasPositions t).width = (updateCanvasPositions s).width ∧
      (updateCanvasPositions t).height = (updateCanvasPositions s).height ∧
      (updateCanvasPositions t).offsetX = (updateCanvasPositions s).offsetX ∧
      (updateCanvasPositions t).offsetY = (updateCanvasPositions s).offsetY ∧
      (updateCanvasPositions t).camera = (updateCanvasPositions s).camera) ∧
    (s.innerWidth = 1200 → s.innerHeight = 600 → s.scale = 0.9 →
      (updateCanvasPositions s).height = 540 ∧ (updateCanvasPositions s).width = 5400 / 7) := by
  have hne : s.innerHeight * s.scale ≠ 0 := (mul_pos hH hs).ne.symm
  refine ⟨rfl, rfl, rfl, rfl, rfl, rfl, ?_, ?_, rfl, ?_, ?_, ?_⟩
  · simp only [updateCanvasPositions, getCanvasSize4by3, RATIO]
    rw [mul_div_cancel_left₀ _ hne]
  · simp only [updateCanvasPositions]
    ring
  · simp only [updateCanvasPositions]
    ring
  · intro t hW hHt hsc
    simp [updateCanvasPositions, hW, hHt, hsc]
  · intro hW hHt hsc
    simp only [updateCanvasPositions, getCanvasSize4by3, RATIO, hHt, hsc]
    norm_num

/-- The layout of C5 for a window resized from 1000×800 to 1200×600 at scale 0.9. -/
theorem updateCanvasPositions_layout_witness :
    (updateCanvasPositions
      { updateCanvasPositions (init 1000 800) with innerWidth := 1200, innerHeight := 600 }).height
        = 540 ∧
    (updateCanvasPositions
      { updateCanvasPositions (init 1000 800) with innerWidth := 1200, innerHeight := 600 }).width
        = 5400 / 7 :=
  (updateCanvasPositions_layout
    { updateCanvasPositions (init 1000 800) with innerWidth := 1200, innerHeight := 600 }
    (by norm_num) (by norm_num [updateCanvasPositions, init, PDF_START_SCALE])).2.2.2.2.2.2.2.2.2.2.2
    rfl rfl (by norm_num [updateCanvasPositions, init, PDF_START_SCALE])

/-! ## Zoom -/

/-- C6 refuted at the initial zoom target: the zoom-out step multiplies by `0.9`, which
is not the reciprocal of the zoom-in factor `1.1`, and one zoom-in step followed by one
zoom-out step does not give back the zoom target. -/
theorem wheel_in_out_not_inverse :
    (wheel (-100) (init 1000 800)).targetZoom = (init 1000 800).targetZoom * 1.1 ∧
    (wheel 100 (init 1000 800)).targetZoom ≠ (init 1000 800).targetZoom * (1 / 1.1) ∧
    (wheel 100 (wheel (-100) (init 1000 800))).targetZoom ≠ (init 1000 800).targetZoom := by
  simp only [wheel, init, PDF_START_SCALE]
  norm_num

/-- C6 as amended: the wheel handler multiplies `targetZoom` by `1.1` when `deltaY < 0`
and by `0.9` otherwise, whatever the magnitude of `deltaY`, and changes nothing else; one
zoom-in step followed by one zoom-out step multiplies `targetZoom` by `0.99`. -/
theorem wheel_targetZoom (s : State) (dIn dOut : ℚ) (hIn : dIn < 0) (hOut : 0 ≤ dOut) :
    (wheel dIn s).targetZoom = s.targetZoom * 1.1 ∧
    (wheel dOut s).targetZoom = s.targetZoom * 0.9 ∧
    (wheel dOut (wheel dIn s)).targetZoom = s.targetZoom * 0.99 ∧
    wheel dIn s = { s with targetZoom := s.targetZoom * 1.1 } ∧
    wheel dOut s = { s with targetZoom := s.targetZoom * 0.9 } := by
  have hOut' : ¬ dOut < 0 := not_lt.mpr hOut
  refine ⟨?_, ?_, ?_, ?_, ?_⟩
  · simp [wheel, hIn]
  · simp [wheel, hOut']
  · simp only [wheel, hIn, hOut', if_true, if_false]
    ring
  · simp [wheel, hIn]
  · simp [wheel, hOut']

/-- The wheel steps of C6 on the initial state, with `deltaY = -3` and `deltaY = 250`. -/
theorem wheel_targetZoom_witness :
    (wheel (-3) (init 1000 800)).targetZoom = (init 1000 800).targetZoom * 1.1 ∧
    (wheel 250 (init 1000 800)).targetZoom = (init 1000 800).targetZoom * 0.9 ∧
    (wheel 250 (wheel (-3) (init 1000 800))).targetZoom = (init 1000 800).targetZoom * 0.99 :=
  have h := wheel_targetZoom (init 1000 800) (-3) 250 (by norm_num) (by norm_num)
  ⟨h.1, h.2.1, h.2.2.1⟩

/-- The traversal of `animate` never sets `visible` to true. -/
theorem traverseFade_visible_of_visible (o : AnimObject) (auto : Bool) (parts : List Part)
    (vis : Bool) (rotY : ℚ) (h : (traverseFade o auto parts vis rotY).2.1 = true) :
    vis = true := by
  induction parts generalizing vis rotY with
  | nil => exact h
  | cons child rest ih =>
    have h1 := ih _ _ h
    unfold fadeChild at h1
    split_ifs at h1 with hm
    · exact h1
    · cases hmat : child.material with
      | none =>
        rw [hmat] at h1
        exact h1
      | some op =>
        rw [hmat] at h1
        simp only at h1
        split_ifs at h1 with hc
        exact h1

/-- When the traversal of `animate` turns `visible` from true to false, the fade target
of the entry is `0` and a material of the scene now has an opacity below `0.01`. -/
theorem traverseFade_hides (o : AnimObject) (auto : Bool) (parts : List Part)
    (vis : Bool) (rotY : ℚ) (hv : vis = true)
    (h : (traverseFade o auto parts vis rotY).2.1 = false) :
    o.fadeTarget = 0 ∧
    ∃ p ∈ (traverseFade o auto parts vis rotY).1,
      p.isMesh = true ∧ ∃ op, p.material = some op ∧ op < 0.01 := by
  induction parts generalizing vis rotY with
  | nil =>
    rw [hv] at h
    exact absurd h (by simp [traverseFade])
  | cons child rest ih =>
    cases hc : (fadeChild o auto child vis rotY).2.1 with
    | true =>
      obtain ⟨h0, p, hp, hp2⟩ := ih _ _ hc h
      exact ⟨h0, p, List.mem_cons_of_mem _ hp, hp2⟩
    | false =>
      have hhead : (fadeChild o auto child vis rotY).1 ∈
          (traverseFade o auto (child :: rest) vis rotY).1 := List.mem_cons_self _ _
      unfold fadeChild at hc hhead
      split_ifs at hc hhead with hm
      · rw [hv] at hc
        exact absurd hc (by simp)
      · cases hmat : child.material with
        | none =>
          rw [hmat] at hc
          rw [hv] at hc
          exact absurd hc (by simp)
        | some op =>
          rw [hmat] at hc hhead
          simp only at hc hhead
          split_ifs at hc with hcond
          · refine ⟨hcond.2, _, hhead, ?_, _, rfl, hcond.1⟩
            simpa using hm
          · rw [hv] at hc
            exact absurd hc (by simp)

/-- The drag rotation changes at each position at most the rotation of the mesh. -/
theorem rotateFirstVisible_getElem? (dy dx : ℚ) (l : List AnimObject) (i : ℕ)
    (o o1 : AnimObject) (h : l[i]? = some o) (h1 : (rotateFirstVisible dy dx l)[i]? = some o1) :
    o1.fadeTarget = o.fadeTarget ∧ o1.rotate = o.rotate ∧ o1.rotateSpeed = o.rotateSpeed ∧
    o1.mesh.visible = o.mesh.visible ∧ o1.mesh.parts = o.mesh.parts := by
  induction l generalizing i with
  | nil => simp at h
  | cons a rest ih =>
    unfold rotateFirstVisible at h1
    split_ifs at h1 with hv
    · cases i with
      | zero =>
        simp only [List.getElem?_cons_zero, Option.some.injEq] at h h1
        subst h h1
        exact ⟨rfl, rfl, rfl, rfl, rfl⟩
      | succ j =>
        simp only [List.getElem?_cons_succ] at h h1
        rw [h] at h1
        cases h1
        exact ⟨rfl, rfl, rfl, rfl, rfl⟩
    · cases i with
      | zero =>
        simp only [List.getElem?_cons_zero, Option.some.injEq] at h h1
        subst h h1
        exact ⟨rfl, rfl, rfl, rfl, rfl⟩
      | succ j =>
        simp only [List.getElem?_cons_succ] at h h1
        exact ih j h h1

/-- The object list after one run of `animate`: each entry, after the drag rotation if
one applies, goes through the fade / rotate body. -/
theorem animate_animObjects (s : State) :
    (animate s).animObjects = s.animObjects.map (fadeObject s.autoRotateEnabled) ∨
    (animate s).animObjects =
      (rotateFirstVisible s.velocityX s.velocityY s.animObjects).map
        (fadeObject s.autoRotateEnabled) := by
  show (dragMomentum s).animObjects.map (fadeObject (dragMomentum s).autoRotateEnabled) = _ ∨
    (dragMomentum s).animObjects.map (fadeObject (dragMomentum s).autoRotateEnabled) = _
  unfold dragMomentum
  split
  · exact Or.inl rfl
  · split_ifs
    · exact Or.inl rfl
    · exact Or.inr rfl

theorem orZero_eq (x : ℚ) : orZero x = x := by
  unfold orZero
  split_ifs with h
  · exact h.symm
  · rfl

/-- One fade step shrinks the distance to the target by the factor `0.9`. -/
theorem fadeStep_sub (t x : ℚ) : fadeStep t x - t = (x - t) * (9 / 10) := by
  rw [fadeStep, orZero_eq, FADE_SPEED]
  ring

theorem fadeStep_iterate_sub (t x : ℚ) (n : ℕ) :
    (fadeStep t)^[n] x - t = (x - t) * (9 / 10) ^ n := by
  induction n with
  | zero => simp
  | succ n ih =>
    rw [Function.iterate_succ_apply', fadeStep_sub, ih]
    ring

/-- The traversal of `animate` leaves `rotation.y` as it was when `rotate`, `visible` or
`autoRotateEnabled` is false. -/
theorem traverseFade_rotation_unchanged (o : AnimObject) (auto : Bool) (parts : List Part)
    (vis : Bool) (rotY : ℚ) (h : (o.rotate && vis && auto) = false) :
    (traverseFade o auto parts vis rotY).2.2 = rotY := by
  induction parts generalizing vis rotY with
  | nil => rfl
  | cons child rest ih =>
    have key : (fadeChild o auto child vis rotY).2.2 = rotY ∧
        (o.rotate && (fadeChild o auto child vis rotY).2.1 && auto) = false := by
      unfold fadeChild
      split_ifs with hm
      · exact ⟨rfl, h⟩
      · cases hmat : child.material with
        | none => exact ⟨rfl, h⟩
        | some op =>
          simp only
          split_ifs with hc hr hr
          · simp at hr
          · simp
          · rw [h] at hr
            exact absurd hr (by simp)
          · exact ⟨rfl, h⟩
    show (traverseFade o auto rest _ _).2.2 = rotY
    rw [ih _ _ key.2, key.1]

/-- A position that holds an entry still holds one after the drag rotation. -/
theorem rotateFirstVisible_getElem?_some (dy dx : ℚ) (l : List AnimObject) (i : ℕ)
    (o : AnimObject) (h : l[i]? = some o) : ∃ o1, (rotateFirstVisible dy dx l)[i]? = some o1 := by
  induction l generalizing i with
  | nil => simp at h
  | cons a rest ih =>
    unfold rotateFirstVisible
    split_ifs with hv
    · cases i with
      | zero => exact ⟨_, List.getElem?_cons_zero⟩
      | succ j => exact ⟨o, by simpa using h⟩
    · cases i with
      | zero => exact ⟨_, List.getElem?_cons_zero⟩
      | succ j =>
        simp only [List.getElem?_cons_succ] at h ⊢
        exact ih j h

/-- In an animation tick the `visible` flag of an entry goes from true to false only if
its fade target is `0` and one of its materials ends the tick with an opacity below
`0.01`. -/
theorem animate_visible_cleared (s : State) (i : ℕ) (o o' : AnimObject)
    (h : s.animObjects[i]? = some o) (h' : (animate s).animObjects[i]? = some o')
    (hv : o.mesh.visible = true) (hv' : o'.mesh.visible = false) :
    o.fadeTarget = 0 ∧ o'.fadeTarget = 0 ∧
    (∃ c ∈ o'.mesh.parts, c.isMesh = true ∧ ∃ op, c.material = some op ∧ op < 0.01) := by
  have key : ∀ o1 : AnimObject, o1.fadeTarget = o.fadeTarget → o1.mesh.visible = true →
      o' = fadeObject s.autoRotateEnabled o1 →
      o.fadeTarget = 0 ∧ o'.fadeTarget = 0 ∧
      (∃ c ∈ o'.mesh.parts, c.isMesh = true ∧ ∃ op, c.material = some op ∧ op < 0.01) := by
    intro o1 hf hvis ho'
    subst ho'
    obtain ⟨h0, hc⟩ := traverseFade_hides o1 s.autoRotateEnabled o1.mesh.parts
      o1.mesh.visible o1.mesh.rotationY hvis hv'
    exact ⟨hf ▸ h0, h0, hc⟩
  rcases animate_animObjects s with ha | ha
  · rw [ha, List.getElem?_map, h] at h'
    simp only [Option.map_some', Option.some.injEq] at h'
    exact key o rfl hv h'.symm
  · rw [ha, List.getElem?_map] at h'
    cases hr : (rotateFirstVisible s.velocityX s.velocityY s.animObjects)[i]? with
    | none => simp [hr] at h'
    | some o1 =>
      rw [hr] at h'
      simp only [Option.map_some', Option.some.injEq] at h'
      obtain ⟨hf, _, _, hvis, _⟩ := rotateFirstVisible_getElem? _ _ _ i o o1 h hr
      exact key o1 hf (hvis.trans hv) h'.symm

/-- An entry that is visible with a non-zero fade target is still so after a tick. -/
theorem animate_keeps_shown (s : State) (i : ℕ) (o : AnimObject)
    (h : s.animObjects[i]? = some o) (hv : o.mesh.visible = true) (hf : o.fadeTarget ≠ 0) :
    ∃ o', (animate s).animObjects[i]? = some o' ∧ o'.mesh.visible = true ∧
      o'.fadeTarget ≠ 0 := by
  have hex : ∃ o', (animate s).animObjects[i]? = some o' ∧ o'.fadeTarget = o.fadeTarget := by
    rcases animate_animObjects s with ha | ha
    · exact ⟨fadeObject s.autoRotateEnabled o, by rw [ha, List.getElem?_map, h]; rfl, rfl⟩
    · obtain ⟨o1, hr⟩ := rotateFirstVisible_getElem?_some s.velocityX s.velocityY _ i o h
      obtain ⟨hf1, _⟩ := rotateFirstVisible_getElem? _ _ _ i o o1 h hr
      exact ⟨fadeObject s.autoRotateEnabled o1, by rw [ha, List.getElem?_map, hr]; rfl, hf1⟩
  obtain ⟨o', ho', hfe⟩ := hex
  refine ⟨o', ho', ?_, by rw [hfe]; exact hf⟩
  cases hvis : o'.mesh.visible with
  | true => rfl
  | false => exact absurd (animate_visible_cleared s i o o' h ho' hv hvis).1 hf

/-- For an entry with `rotate` true, a visible mesh, auto-rotation on and a non-zero fade
target, the traversal of one tick adds `rotateSpeed` once for every visited node that is
a mesh with a material. -/
theorem traverseFade_rotation_count (o : AnimObject) (parts : List Part) (rotY : ℚ)
    (hr : o.rotate = true) (hf : o.fadeTarget ≠ 0) :
    (traverseFade o true parts true rotY).2.1 = true ∧
    (traverseFade o true parts true rotY).2.2 =
      rotY + (parts.countP (fun c => c.isMesh && c.material.isSome) : ℕ) * o.rotateSpeed := by
  induction parts generalizing rotY with
  | nil => simp [traverseFade]
  | cons child rest ih =>
    have key : (fadeChild o true child true rotY).2.1 = true ∧
        (fadeChild o true child true rotY).2.2 =
          rotY + (if (child.isMesh && child.material.isSome) = true then o.rotateSpeed else 0) := by
      cases hm : child.isMesh with
      | false => simp [fadeChild, hm]
      | true =>
        cases hmat : child.material with
        | none => simp [fadeChild, hm, hmat]
        | some op => simp [fadeChild, hm, hmat, hf, hr]
    have hstep : traverseFade o true (child :: rest) true rotY =
        ((fadeChild o true child true rotY).1 ::
          (traverseFade o true rest (fadeChild o true child true rotY).2.1
            (fadeChild o true child true rotY).2.2).1,
         (traverseFade o true rest (fadeChild o true child true rotY).2.1
            (fadeChild o true child true rotY).2.2).2.1,
         (traverseFade o true rest (fadeChild o true child true rotY).2.1
            (fadeChild o true child true rotY).2.2).2.2) := rfl
    rw [hstep, key.1]
    obtain ⟨h1, h2⟩ := ih (fadeChild o true child true rotY).2.2
    refine ⟨h1, ?_⟩
    show (traverseFade o true rest true (fadeChild o true child true rotY).2.2).2.2 = _
    rw [h2, key.2, List.countP_cons]
    split_ifs with hc
    · push_cast
      ring
    · simp

/-- C10, on the state in which model 1, a scene with two material-bearing meshes, is shown
on page 10 with `rotate`, `visible` and `autoRotateEnabled` all true: one fade / rotate
pass adds `rotateSpeed = 0.001` once per mesh, so `rotation.y` goes from `0` to `0.002`;
for a scene without any material-bearing mesh the pass adds nothing. -/
theorem fadePass_rotates_once_per_mesh :
    (handlePageChange 10 (onLoadModel1 twoMeshScene (init 1000 800))).state.animObjects.map
      (fun o => (o.rotate, o.mesh.visible, o.rotateSpeed, o.mesh.rotationY)) =
      [(true, true, 0.001, 0)] ∧
    (handlePageChange 10 (onLoadModel1 twoMeshScene (init 1000 800))).state.autoRotateEnabled
      = true ∧
    (fadePass (handlePageChange 10 (onLoadModel1 twoMeshScene
        (init 1000 800))).state).animObjects.map (fun o => o.mesh.rotationY) = [0.002] ∧
    (fadePass (handlePageChange 10 (onLoadModel1 emptyScene
        (init 1000 800))).state).animObjects.map
      (fun o => (o.rotate, o.mesh.visible, o.mesh.rotationY)) = [(true, true, 0)] := by
  refine ⟨rfl, rfl, ?_, rfl⟩
  have hs : (handlePageChange 10 (onLoadModel1 twoMeshScene (init 1000 800))).state.animObjects =
      [{ mesh := { twoMeshScene with visible := true }, fadeTarget := 1, rotate := true,
         rotateSpeed := 0.001 }] := rfl
  have ha : (handlePageChange 10 (onLoadModel1 twoMeshScene
      (init 1000 800))).state.autoRotateEnabled = true := rfl
  simp only [fadePass, hs, ha]
  simp only [List.map_cons, List.map_nil, fadeObject, traverseFade, fadeChild,
    fadeStep, orZero, twoMeshScene, FADE_SPEED]
  norm_num

/-- C8: with `FADE_SPEED = 0.1`, for an initial opacity and a fixed fade target both in
`[0, 1]`, there is a step count `N ≤ 100` (namely 44) from which on the opacity obtained
by iterating the fade step stays at a distance below `0.01` from the target. -/
theorem fade_converges (o0 t : ℚ) (ho0 : 0 ≤ o0) (ho1 : o0 ≤ 1) (ht0 : 0 ≤ t) (ht1 : t ≤ 1) :
    ∃ N, N ≤ 100 ∧ ∀ n, N ≤ n → |(fadeStep t)^[n] o0 - t| < 0.01 := by
  refine ⟨44, by norm_num, fun n hn => ?_⟩
  rw [fadeStep_iterate_sub, abs_mul]
  have hd : |o0 - t| ≤ 1 := by
    rw [abs_le]
    constructor <;> linarith
  have hq : (0 : ℚ) ≤ 9 / 10 := by norm_num
  have hp : |((9 : ℚ) / 10) ^ n| = (9 / 10) ^ n := abs_of_nonneg (pow_nonneg hq n)
  have hmono : ((9 : ℚ) / 10) ^ n ≤ (9 / 10) ^ 44 :=
    pow_le_pow_of_le_one hq (by norm_num) hn
  have h44 : ((9 : ℚ) / 10) ^ 44 < 0.01 := by norm_num
  rw [hp]
  calc |o0 - t| * (9 / 10) ^ n ≤ 1 * (9 / 10) ^ n :=
        mul_le_mul_of_nonneg_right hd (pow_nonneg hq n)
    _ = (9 / 10) ^ n := one_mul _
    _ ≤ (9 / 10) ^ 44 := hmono
    _ < 0.01 := h44

/-- The bound of C8 for a fade-out from full opacity: target `0`, initial opacity `1`. -/
theorem fade_converges_witness :
    ∃ N, N ≤ 100 ∧ ∀ n, N ≤ n → |(fadeStep 0)^[n] 1 - 0| < 0.01 :=
  fade_converges 1 0 (by norm_num) (by norm_num) (by norm_num) (by norm_num)

/-! ## Drag momentum -/

/-- A tick with a visible object and no drag in progress multiplies the stored velocity
by `DAMP`. -/
theorem animate_velocity_coast (s : State) (hdrag : s.isDragging = false)
    (hvis : (visibleObj s).isSome = true) :
    (animate s).velocityX = s.velocityX * DAMP ∧ (animate s).velocityY = s.velocityY * DAMP := by
  show (dragMomentum s).velocityX = _ ∧ (dragMomentum s).velocityY = _
  unfold dragMomentum
  cases hf : visibleObj s with
  | none => simp [hf] at hvis
  | some o =>
    simp only [hdrag]
    exact ⟨rfl, rfl⟩

theorem animate_isDragging (s : State) : (animate s).isDragging = s.isDragging := by
  show (dragMomentum s).isDragging = _
  unfold dragMomentum
  split
  · rfl
  · split_ifs <;> rfl

theorem animate_iterate_isDragging (s : State) (n : ℕ) :
    (animate^[n] s).isDragging = s.isDragging := by
  induction n with
  | zero => rfl
  | succ n ih => rw [Function.iterate_succ_apply', animate_isDragging, ih]

/-- With a visible object at each of the first `n` ticks, the velocity after `n` ticks is
the released velocity times `DAMP ^ n`. -/
theorem animate_iterate_velocity (s : State) (hdrag : s.isDragging = false) (n : ℕ)
    (hvis : ∀ k, k < n → (visibleObj (animate^[k] s)).isSome = true) :
    (animate^[n] s).velocityX = s.velocityX * DAMP ^ n ∧
    (animate^[n] s).velocityY = s.velocityY * DAMP ^ n := by
  induction n with
  | zero => simp
  | succ n ih =>
    obtain ⟨hx, hy⟩ := ih (fun k hk => hvis k (Nat.lt_succ_of_lt hk))
    have hd : (animate^[n] s).isDragging = false := by
      rw [animate_iterate_isDragging, hdrag]
    obtain ⟨hx1, hy1⟩ := animate_velocity_coast _ hd (hvis n (Nat.lt_succ_self n))
    rw [Function.iterate_succ_apply', hx1, hy1, hx, hy]
    constructor <;> ring

/-- While an entry is visible with a non-zero fade target, `visibleObj` finds an object at
every tick. -/
theorem visibleObj_iterate_of_shown (s : State) (i : ℕ) (o : AnimObject)
    (h : s.animObjects[i]? = some o) (hv : o.mesh.visible = true) (hf : o.fadeTarget ≠ 0)
    (k : ℕ) : (visibleObj (animate^[k] s)).isSome = true := by
  induction k generalizing s o with
  | zero =>
    rw [Function.iterate_zero, id, visibleObj, List.find?_isSome]
    exact ⟨o, List.mem_iff_getElem?.mpr ⟨i, h⟩, hv⟩
  | succ k ih =>
    obtain ⟨o', ho', hv', hf'⟩ := animate_keeps_shown s i o h hv hf
    rw [Function.iterate_succ_apply]
    exact ih (animate s) o' ho' hv' hf'

/-- With an entry shown (visible, non-zero fade target) and no drag in progress, the
velocity after `n` ticks is the released velocity times `DAMP ^ n`, for every `n`. -/
theorem velocity_of_shown (s : State) (i : ℕ) (o : AnimObject)
    (h : s.animObjects[i]? = some o) (hv : o.mesh.visible = true) (hf : o.fadeTarget ≠ 0)
    (hdrag : s.isDragging = false) (n : ℕ) :
    (animate^[n] s).velocityX = s.velocityX * DAMP ^ n ∧
    (animate^[n] s).velocityY = s.velocityY * DAMP ^ n :=
  animate_iterate_velocity s hdrag n (fun k _ => visibleObj_iterate_of_shown s i o h hv hf k)

end PdfViewer
